import Mathlib

/-!
Verification development for the triple-buffer concurrency primitive
(`src/TripleBuffer.hxx`, tested by `src/TestTripleBuffer.cpp`).

Shallow embedding. The C++ class holds

  * `mutable atomic_uint_fast8_t flags` — one packed byte:
      `newWrite   = (flags & 0x40)`
      `dirtyIndex = (flags & 0x30) >> 4`
      `cleanIndex = (flags & 0xC)  >> 2`
      `snapIndex  = (flags & 0x3)`
  * `T buffer[3]` — three slots of the element type.

The flag word is modelled as a `Nat` (every value the code ever stores is
below 0x80, and the bit masks in each operation truncate any larger input
exactly as the C integer conversions would).  The three-cell array is
modelled as a total function `Nat → T`; the partition invariant proved
below shows that on every reachable flag word each index field is in
`{0,1,2}`, so the extra domain points are never consulted.

The two CAS retry loops (`flipWriter`, `newSnap`) are given sequential
semantics: one load, one transform, one successful compare-exchange, which
is exactly one loop iteration of the source.  Memory orderings are not
modelled.
-/

structure TripleBuffer (T : Type) where
  flags : Nat
  buffer : Nat → T

namespace TripleBuffer

variable {T : Type}

/-- Field accessor, from the comment block of the source header:
`snapIndex = (flags & 0x3)`. -/
def snapIndex (flags : Nat) : Nat := flags &&& 0x3

/-- Field accessor: `cleanIndex = (flags & 0xC) >> 2`. -/
def cleanIndex (flags : Nat) : Nat := (flags &&& 0xC) >>> 2

/-- Field accessor: `dirtyIndex = (flags & 0x30) >> 4`. -/
def dirtyIndex (flags : Nat) : Nat := (flags &&& 0x30) >>> 4

/-- `isNewWrite(flags)`: `return ((flags & 0x40) != 0);`. -/
def isNewWrite (flags : Nat) : Bool := flags &&& 0x40 != 0

/-- `swapSnapWithClean(flags)`:
`return (flags & 0x30) | ((flags & 0x3) << 2) | ((flags & 0xC) >> 2);`. -/
def swapSnapWithClean (flags : Nat) : Nat :=
  (flags &&& 0x30) ||| ((flags &&& 0x3) <<< 2) ||| ((flags &&& 0xC) >>> 2)

/-- `newWriteSwapCleanWithDirty(flags)`:
`return 0x40 | ((flags & 0xC) << 2) | ((flags & 0x30) >> 2) | (flags & 0x3);`. -/
def newWriteSwapCleanWithDirty (flags : Nat) : Nat :=
  0x40 ||| ((flags &&& 0xC) <<< 2) ||| ((flags &&& 0x30) >>> 2) ||| (flags &&& 0x3)

/-- Default constructor `TripleBuffer()`: every slot gets `T dummy = T()`
(the default value) and `flags.store(0x6)`. -/
def ofDefault [Inhabited T] : TripleBuffer T :=
  { flags := 0x6, buffer := fun _ => default }

/-- Value constructor `TripleBuffer(const T& init)`: every slot gets the
caller's value and `flags.store(0x6)`. -/
def ofInit (init : T) : TripleBuffer T :=
  { flags := 0x6, buffer := fun _ => init }

/-- `snap()`: `return buffer[flags.load() & 0x3];` — the method is `const`
and its body performs only the atomic load and the array read. -/
def snap (s : TripleBuffer T) : T := s.buffer (s.flags &&& 0x3)

/-- `snap()` in state-transformer form, to speak about its (absent) side
effects: the body contains no store, so the state out is the state in. -/
def snapOp (s : TripleBuffer T) : T × TripleBuffer T :=
  (s.buffer (s.flags &&& 0x3), s)

/-- `write(newT)`: `buffer[(flags.load() & 0x30) >> 4] = newT;` — store
into the dirty slot, the flag word untouched. -/
def write (s : TripleBuffer T) (newT : T) : TripleBuffer T :=
  { s with buffer := fun i => if i = (s.flags &&& 0x30) >>> 4 then newT else s.buffer i }

/-- `newSnap()`: load the flag word; if `isNewWrite` is false return
`false` without a store; else CAS in `swapSnapWithClean` and return
`true`.  Sequential semantics of the retry loop: one successful
iteration. -/
def newSnap (s : TripleBuffer T) : Bool × TripleBuffer T :=
  if isNewWrite s.flags then
    (true, { s with flags := swapSnapWithClean s.flags })
  else
    (false, s)

/-- `flipWriter()`: CAS in `newWriteSwapCleanWithDirty` (one successful
iteration of the retry loop). -/
def flipWriter (s : TripleBuffer T) : TripleBuffer T :=
  { s with flags := newWriteSwapCleanWithDirty s.flags }

/-- `readLast()`: `newSnap(); return snap();` — returns the value read and
the state after the `newSnap`. -/
def readLast (s : TripleBuffer T) : T × TripleBuffer T :=
  (snap (newSnap s).2, (newSnap s).2)

/-- `update(newT)`: `write(newT); flipWriter();`. -/
def update (s : TripleBuffer T) (newT : T) : TripleBuffer T :=
  flipWriter (write s newT)

/-!
Bit-level helper lemmas.  Every field access masks the flag word with a
constant below 0x80, so each operation depends only on the word modulo
128; this reduces universally quantified bit-field identities to a finite
check.
-/

lemma land_eq_mod128_land (f m : Nat) (hm : m < 128) : f &&& m = f % 128 &&& m := by
  apply Nat.eq_of_testBit_eq
  intro i
  simp only [Nat.testBit_and]
  rcases Nat.lt_or_ge i 7 with h | h
  · have : f % 128 = f % 2 ^ 7 := by norm_num
    rw [this, Nat.testBit_mod_two_pow]
    simp [h]
  · have h2 : (128 : Nat) ≤ 2 ^ i := by
      have : (2 : Nat) ^ 7 ≤ 2 ^ i := Nat.pow_le_pow_right (by norm_num) h
      simpa using this
    have hmb : m.testBit i = false := Nat.testBit_lt_two_pow (Nat.lt_of_lt_of_le hm h2)
    simp [hmb]

lemma snapIndex_mod128 (f : Nat) : snapIndex f = snapIndex (f % 128) := by
  unfold snapIndex
  rw [land_eq_mod128_land f 0x3 (by norm_num)]

lemma cleanIndex_mod128 (f : Nat) : cleanIndex f = cleanIndex (f % 128) := by
  unfold cleanIndex
  rw [land_eq_mod128_land f 0xC (by norm_num)]

lemma dirtyIndex_mod128 (f : Nat) : dirtyIndex f = dirtyIndex (f % 128) := by
  unfold dirtyIndex
  rw [land_eq_mod128_land f 0x30 (by norm_num)]

lemma isNewWrite_mod128 (f : Nat) : isNewWrite f = isNewWrite (f % 128) := by
  unfold isNewWrite
  rw [land_eq_mod128_land f 0x40 (by norm_num)]

lemma swapSnapWithClean_mod128 (f : Nat) :
    swapSnapWithClean f = swapSnapWithClean (f % 128) := by
  unfold swapSnapWithClean
  rw [land_eq_mod128_land f 0x30 (by norm_num), land_eq_mod128_land f 0x3 (by norm_num),
    land_eq_mod128_land f 0xC (by norm_num)]

lemma newWriteSwapCleanWithDirty_mod128 (f : Nat) :
    newWriteSwapCleanWithDirty f = newWriteSwapCleanWithDirty (f % 128) := by
  unfold newWriteSwapCleanWithDirty
  rw [land_eq_mod128_land f 0xC (by norm_num), land_eq_mod128_land f 0x30 (by norm_num),
    land_eq_mod128_land f 0x3 (by norm_num)]

/-- Field behaviour of `newWriteSwapCleanWithDirty` on every flag word:
new-write forced on, clean and dirty fields exchanged, snap field kept. -/
lemma newWriteSwapCleanWithDirty_fields (f : Nat) :
    isNewWrite (newWriteSwapCleanWithDirty f) = true ∧
    cleanIndex (newWriteSwapCleanWithDirty f) = dirtyIndex f ∧
    dirtyIndex (newWriteSwapCleanWithDirty f) = cleanIndex f ∧
    snapIndex (newWriteSwapCleanWithDirty f) = snapIndex f := by
  rw [newWriteSwapCleanWithDirty_mod128 f, cleanIndex_mod128 f, dirtyIndex_mod128 f,
    snapIndex_mod128 f]
  have hr : f % 128 < 128 := Nat.mod_lt _ (by norm_num)
  revert hr
  generalize f % 128 = r
  revert r
  decide

/-- Field behaviour of `swapSnapWithClean` on every flag word: snap and
clean fields exchanged, dirty field kept, new-write bit cleared. -/
lemma swapSnapWithClean_fields (f : Nat) :
    snapIndex (swapSnapWithClean f) = cleanIndex f ∧
    cleanIndex (swapSnapWithClean f) = snapIndex f ∧
    dirtyIndex (swapSnapWithClean f) = dirtyIndex f ∧
    isNewWrite (swapSnapWithClean f) = false := by
  rw [swapSnapWithClean_mod128 f, cleanIndex_mod128 f, dirtyIndex_mod128 f, snapIndex_mod128 f]
  have hr : f % 128 < 128 := Nat.mod_lt _ (by norm_num)
  revert hr
  generalize f % 128 = r
  revert r
  decide

/-!
Reachability of flag words.  The flag word starts at 0x6 and is mutated
only by the two CAS transforms: `flipWriter` installs
`newWriteSwapCleanWithDirty`, and `newSnap` installs `swapSnapWithClean`
when the new-write bit is set (and stores nothing otherwise).
-/

/-- The flag words reachable from the construction value 0x6 by the
`flipWriter` and `newSnap` transitions. -/
inductive ReachableFlags : Nat → Prop where
  | init : ReachableFlags 0x6
  | flip {f : Nat} : ReachableFlags f → ReachableFlags (newWriteSwapCleanWithDirty f)
  | snapSwap {f : Nat} : ReachableFlags f →
      ReachableFlags (if isNewWrite f then swapSnapWithClean f else f)

/-- Exhaustive list of flag words the transition system can visit: each
assignment of three distinct indices to the dirty, clean and snap fields,
with the new-write bit clear or set. -/
def reachableWords : List Nat :=
  [6, 9, 18, 24, 33, 36, 70, 73, 82, 88, 97, 100]

lemma reachableWords_closed :
    ∀ f ∈ reachableWords, newWriteSwapCleanWithDirty f ∈ reachableWords ∧
      (if isNewWrite f then swapSnapWithClean f else f) ∈ reachableWords := by
  decide

lemma mem_reachableWords {f : Nat} (h : ReachableFlags f) : f ∈ reachableWords := by
  induction h with
  | init => decide
  | flip _ ih => exact (reachableWords_closed _ ih).1
  | snapSwap _ ih => exact (reachableWords_closed _ ih).2

/-!
Claim theorems.
-/

/-- C1: for every flag word reachable from the initial word
(dirty=0, clean=1, snap=2, newWrite=0) by `flipWriter` and `newSnap`
transitions, the snap, clean and dirty index fields are a permutation of
`{0,1,2}` — no overlap and no gap. -/
theorem reachable_partition_invariant (f : Nat) (h : ReachableFlags f) :
    ({snapIndex f, cleanIndex f, dirtyIndex f} : Finset Nat) = {0, 1, 2} := by
  have hmem := mem_reachableWords h
  have hall : ∀ g ∈ reachableWords,
      ({snapIndex g, cleanIndex g, dirtyIndex g} : Finset Nat) = {0, 1, 2} := by decide
  exact hall f hmem

/-- Witness for C1 at the construction word 0x6. -/
theorem reachable_partition_invariant_witness :
    ({snapIndex 0x6, cleanIndex 0x6, dirtyIndex 0x6} : Finset Nat) = {0, 1, 2} :=
  reachable_partition_invariant 0x6 ReachableFlags.init

/-- C2: on every flag word, `flipWriter` forces the new-write bit on,
makes the clean field the old dirty field and the dirty field the old
clean field, keeps the snap field, and leaves every buffer slot alone. -/
theorem flipWriter_spec (s : TripleBuffer T) :
    isNewWrite (flipWriter s).flags = true ∧
    cleanIndex (flipWriter s).flags = dirtyIndex s.flags ∧
    dirtyIndex (flipWriter s).flags = cleanIndex s.flags ∧
    snapIndex (flipWriter s).flags = snapIndex s.flags ∧
    (flipWriter s).buffer = s.buffer := by
  obtain ⟨h1, h2, h3, h4⟩ := newWriteSwapCleanWithDirty_fields s.flags
  exact ⟨h1, h2, h3, h4, rfl⟩

/-- C3: `newSnap` returns whether the new-write bit was set; when it is
clear the state is returned untouched; when it is set the snap and clean
fields are exchanged, the dirty field kept, the new-write bit cleared, and
no buffer slot changes. -/
theorem newSnap_spec (s : TripleBuffer T) :
    (newSnap s).1 = isNewWrite s.flags ∧
    (isNewWrite s.flags = false → (newSnap s).2 = s) ∧
    (isNewWrite s.flags = true →
      snapIndex (newSnap s).2.flags = cleanIndex s.flags ∧
      cleanIndex (newSnap s).2.flags = snapIndex s.flags ∧
      dirtyIndex (newSnap s).2.flags = dirtyIndex s.flags ∧
      isNewWrite (newSnap s).2.flags = false ∧
      (newSnap s).2.buffer = s.buffer) := by
  unfold newSnap
  rcases hb : isNewWrite s.flags with _ | _
  · simp [hb]
  · obtain ⟨h1, h2, h3, h4⟩ := swapSnapWithClean_fields s.flags
    simp [hb, h1, h2, h3, h4]

/-- Witness for C3 at the concrete state with flag word 0x6 (new-write
clear) and, for the set branch, flag word 0x52 (new-write set). -/
theorem newSnap_spec_witness :
    (newSnap (TripleBuffer.mk 0x6 (fun _ => (0 : Nat)))).2 =
      TripleBuffer.mk 0x6 (fun _ => (0 : Nat)) ∧
    snapIndex (newSnap (TripleBuffer.mk 0x52 (fun _ => (0 : Nat)))).2.flags =
      cleanIndex 0x52 :=
  ⟨(newSnap_spec (TripleBuffer.mk 0x6 (fun _ => (0 : Nat)))).2.1 (by decide),
   ((newSnap_spec (TripleBuffer.mk 0x52 (fun _ => (0 : Nat)))).2.2 (by decide)).1⟩

/-!
Further operations used by the remaining claims.
-/

/-- A writer burst: `update(v1); update(v2); …` for the values in the
list, no reader call in between. -/
def applyUpdates (s : TripleBuffer T) (vs : List T) : TripleBuffer T :=
  vs.foldl update s

/-- The state after `n` consecutive `snap()` calls. -/
def iterSnap : Nat → TripleBuffer T → TripleBuffer T
  | 0, s => s
  | n + 1, s => iterSnap n (snapOp s).2

/-- Modelled from the spec: the second header variant present in the
original artifact, which is missing from `src/` — a copyable
`TripleBuffer` whose `newSnap` returns void.  When a new write is pending
it gives the snap field the old clean field and the clean field the old
snap field, keeps the dirty field, and leaves the `newWrite` bit set;
with no pending write it returns immediately without modifying state. -/
def newSnapVoidVariant (s : TripleBuffer T) : TripleBuffer T :=
  if isNewWrite s.flags then
    { s with
      flags := 0x40 ||| (s.flags &&& 0x30) ||| ((s.flags &&& 0x3) <<< 2) |||
        ((s.flags &&& 0xC) >>> 2) }
  else s

/-- After a publish (`flipWriter`) the slot a claim (`newSnap`) exposes to
the reader is exactly the writer's old dirty slot. -/
lemma snapIndex_swap_after_flip (f : Nat) :
    swapSnapWithClean (newWriteSwapCleanWithDirty f) &&& 0x3 = (f &&& 0x30) >>> 4 :=
  ((swapSnapWithClean_fields (newWriteSwapCleanWithDirty f)).1).trans
    (newWriteSwapCleanWithDirty_fields f).2.1

/-- One update followed by `readLast` hands the reader the value just
written. -/
lemma readLast_update_fst (s : TripleBuffer T) (v : T) :
    (readLast (update s v)).1 = v := by
  have h1 := (newWriteSwapCleanWithDirty_fields s.flags).1
  have h2 := snapIndex_swap_after_flip s.flags
  simp only [readLast, update, flipWriter, write, newSnap, snap, isNewWrite] at *
  simp [h1, h2]

/-- C4: a burst of updates `v1 … v(n-1), v` with no interleaved reader
call, followed by `readLast`, yields the last value written. -/
theorem updates_then_readLast (s : TripleBuffer T) (vs : List T) (v : T) :
    (readLast (applyUpdates s (vs ++ [v]))).1 = v := by
  unfold applyUpdates
  rw [List.foldl_append]
  exact readLast_update_fst _ v

/-- C5: `snap()` returns a copy of the slot the snap field selects,
changes neither the flag word nor any slot, and any number of consecutive
`snap()` calls with no intervening `newSnap()` return the same value. -/
theorem snap_pure (s : TripleBuffer T) :
    (snapOp s).1 = s.buffer (snapIndex s.flags) ∧
    snap s = (snapOp s).1 ∧
    (snapOp s).2 = s ∧
    ∀ n : Nat, (snapOp (iterSnap n s)).1 = (snapOp s).1 := by
  have hiter : ∀ n : Nat, iterSnap n s = s := by
    intro n
    induction n with
    | zero => rfl
    | succ n ih => exact ih
  exact ⟨rfl, rfl, rfl, fun n => by rw [hiter]⟩

/-- C7: both constructors store the packed word 0x6 — dirty field 0, clean
field 1, snap field 2, new-write bit clear — and fill every slot with the
default value, respectively the caller's value. -/
theorem constructor_spec [Inhabited T] (v : T) :
    (ofDefault : TripleBuffer T).flags = 0x6 ∧
    (ofInit v).flags = 0x6 ∧
    dirtyIndex 0x6 = 0 ∧ cleanIndex 0x6 = 1 ∧ snapIndex 0x6 = 2 ∧
    isNewWrite 0x6 = false ∧
    (∀ i : Nat, (ofDefault : TripleBuffer T).buffer i = default) ∧
    (∀ i : Nat, (ofInit v).buffer i = v) :=
  ⟨rfl, rfl, by decide, by decide, by decide, by decide, fun _ => rfl, fun _ => rfl⟩

/-- C8: the two header variants diverge.  At the reachable flag word 0x52
the variant under `src/` (boolean-returning `newSnap`) clears the
new-write bit and lands on 0x18, while the spec-modelled copyable,
void-returning variant leaves the bit set and lands on 0x58. -/
theorem header_variants_diverge :
    (newSnap (TripleBuffer.mk 0x52 (fun _ => (0 : Nat)))).2.flags = 0x18 ∧
    (newSnapVoidVariant (TripleBuffer.mk 0x52 (fun _ => (0 : Nat)))).flags = 0x58 ∧
    isNewWrite (newSnap (TripleBuffer.mk 0x52 (fun _ => (0 : Nat)))).2.flags = false ∧
    isNewWrite (newSnapVoidVariant (TripleBuffer.mk 0x52 (fun _ => (0 : Nat)))).flags = true ∧
    (newSnap (TripleBuffer.mk 0x52 (fun _ => (0 : Nat)))).2.flags ≠
      (newSnapVoidVariant (TripleBuffer.mk 0x52 (fun _ => (0 : Nat)))).flags := by
  decide

/-- C9: `flipWriter` with no preceding `write` still sets the new-write
bit, so `newSnap` claims successfully and `snap` then returns whatever the
former dirty slot held; right after value construction that is the
initial value, which no `write` call produced. -/
theorem flip_without_write (s : TripleBuffer T) (v : T) :
    (newSnap (flipWriter s)).1 = true ∧
    snap (newSnap (flipWriter s)).2 = s.buffer (dirtyIndex s.flags) ∧
    snap (newSnap (flipWriter (ofInit v))).2 = v := by
  have h1 := (newWriteSwapCleanWithDirty_fields s.flags).1
  have h2 := snapIndex_swap_after_flip s.flags
  have h1i : isNewWrite (newWriteSwapCleanWithDirty 0x6) = true := by decide
  constructor
  · simp [newSnap, flipWriter, h1]
  constructor
  · simp only [newSnap, flipWriter, snap, dirtyIndex] at *
    simp [h1, h2]
  · simp [newSnap, flipWriter, snap, ofInit, h1i]

/-- C10: `write` never touches the flag word, so two consecutive writes
with no `flipWriter` in between hit the same dirty slot and the first
value is overwritten in place — the state equals that of the second write
alone. -/
theorem write_write_collapse (s : TripleBuffer T) (v1 v2 : T) :
    write (write s v1) v2 = write s v2 ∧ (write s v1).flags = s.flags := by
  refine ⟨?_, rfl⟩
  show TripleBuffer.mk s.flags _ = TripleBuffer.mk s.flags _
  rw [TripleBuffer.mk.injEq]
  refine ⟨rfl, funext fun i => ?_⟩
  by_cases h : i = (s.flags &&& 0x30) >>> 4 <;> simp [write, h]

/-!
The concrete scenario of `src/TestTripleBuffer.cpp`, run on `Nat` values:
a buffer constructed with 0, then the exact call sequence of the test.
-/

/-- Test state after `write(3); flipWriter();` from construction with 0. -/
def testS1 : TripleBuffer Nat := flipWriter (write (ofInit 0) 3)

/-- Test state after the first `newSnap()`. -/
def testS2 : TripleBuffer Nat := (newSnap testS1).2

/-- Test state after `write(4); flip; write(5); flip; write(6); flip;`. -/
def testS3 : TripleBuffer Nat :=
  flipWriter (write (flipWriter (write (flipWriter (write testS2 4)) 5)) 6)

/-- Test state after the second `newSnap()`. -/
def testS4 : TripleBuffer Nat := (newSnap testS3).2

/-- Test state after `write(7); flip; write(8); flip;` (not yet claimed). -/
def testS5 : TripleBuffer Nat :=
  flipWriter (write (flipWriter (write testS4 7)) 8)

/-- Test state after the next `write(7); flip; write(8); flip;`. -/
def testS6 : TripleBuffer Nat :=
  flipWriter (write (flipWriter (write testS5 7)) 8)

/-- Test state after the third `newSnap()`. -/
def testS7 : TripleBuffer Nat := (newSnap testS6).2

/-- Test state after the fourth `newSnap()` (no new data pending). -/
def testS8 : TripleBuffer Nat := (newSnap testS7).2

/-- C6: the reference-test scenario — after `write(3); flip; newSnap()`
the snap is 3; after three more updates, one claim, and two unclaimed
updates the snap is still 6; after repeating the two updates and claiming,
the snap is 8, and one further claim leaves it 8. -/
theorem test_scenario :
    snap testS2 = 3 ∧ snap testS5 = 6 ∧ snap testS7 = 8 ∧ snap testS8 = 8 := by
  decide

end TripleBuffer
